import Mathlib

/-!
Verification of the financial portfolio scanner pipeline
(`financial_portfolio_scanner`): a shallow embedding of the risk scoring
engine (`analyze_risk_exposure`), the news scanner (`scan_market_news`),
the reporting agent fallback chain (`AzureReportingAgent.generate_response`),
the scan orchestrator (`PortfolioScanOrchestrator.scan_portfolio`) and the
batch driver (`batch_process_portfolios`), together with theorems settling
the specification claims about them.

Documents exchanged between components are JSON; the Python code passes
them as strings and parses with `json.loads`.  The embedding works at the
parsed level: a `Json` value stands for a parsed document, fallible
operations (attribute errors, validation errors) return `Except String`.
Numbers are embedded as `Rat` (every literal in the source has an exact
decimal value); Python integer arithmetic in the risk engine is embedded
as `Int` arithmetic, which is exact since Python integers are unbounded.
-/

namespace PortfolioScanner

/-- A parsed JSON document, as produced by `json.loads`. -/
inductive Json where
  | null : Json
  | bool (b : Bool) : Json
  | num (q : Rat) : Json
  | str (s : String) : Json
  | arr (elems : List Json) : Json
  | obj (fields : List (String × Json)) : Json
deriving Inhabited

/-- First binding of key `k` in an object's field list (Python dicts have
unique keys, so this is the dict lookup). -/
def lookupField (fields : List (String × Json)) (k : String) : Option Json :=
  (fields.find? (fun p => p.1 == k)).map (fun p => p.2)

/-- Python `d.get(k, default)`: defaulting lookup, an `AttributeError`
when the receiver is not a dict. -/
def Json.getD (j : Json) (k : String) (d : Json) : Except String Json :=
  match j with
  | .obj fs => .ok ((lookupField fs k).getD d)
  | _ => .error "AttributeError: object has no attribute get"

/-- Python `d.get(k)`: lookup with `None` default, an `AttributeError`
when the receiver is not a dict. -/
def Json.getOpt (j : Json) (k : String) : Except String (Option Json) :=
  match j with
  | .obj fs => .ok (lookupField fs k)
  | _ => .error "AttributeError: object has no attribute get"

/-- Python `len` on a JSON value: defined for lists, strings and dicts,
a `TypeError` otherwise. -/
def Json.pyLen : Json → Except String Nat
  | .arr xs => .ok xs.length
  | .str s => .ok s.length
  | .obj fs => .ok fs.length
  | _ => .error "TypeError: object has no len"

/-- Python iteration over a JSON value: lists yield their elements,
strings their one-character substrings, dicts their keys; anything else
is a `TypeError`. -/
def Json.pyIter : Json → Except String (List Json)
  | .arr xs => .ok xs
  | .str s => .ok (s.toList.map (fun c => Json.str (String.singleton c)))
  | .obj fs => .ok (fs.map (fun p => Json.str p.1))
  | _ => .error "TypeError: object is not iterable"

/-- Python truthiness of a JSON value. -/
def Json.truthy : Json → Bool
  | .null => false
  | .bool b => b
  | .num q => !(q == 0)
  | .str s => !(s == "")
  | .arr xs => !xs.isEmpty
  | .obj fs => !fs.isEmpty

/-- Python truthiness test `not s.strip()`: the strip of a string is
empty exactly when every character is whitespace. -/
def isBlank (s : String) : Bool :=
  s.toList.all (fun c => c.isWhitespace)

/-- Python comparison `a.get(k) == v` for a dict `a` and string literal
`v`: true exactly when the field is present and is the string `v` (a
missing key yields `None` and any non-string value compares unequal to a
string in Python). -/
def hasField (k v : String) (a : Json) : Bool :=
  match a with
  | .obj fs =>
      match lookupField fs k with
      | some (.str t) => t == v
      | _ => false
  | _ => false

/-- The test `alert.get("sentiment") == target` from the alert counters
in `analyze_risk_exposure` (tool_functions.py lines 445-446). -/
def hasSentiment (target : String) (a : Json) : Bool :=
  hasField "sentiment" target a

/-- Embedding of `sum(1 for alert in alerts if alert.get("sentiment") == target)`
(tool_functions.py lines 445-446): each alert must be a dict (Python
`.get` raises `AttributeError` otherwise); a dict alert contributes 1
exactly when its sentiment field is the string `target`. -/
def countSentiment (items : List Json) (target : String) : Except String Nat :=
  match items with
  | [] => .ok 0
  | a :: rest =>
      match a with
      | .obj fs =>
          match countSentiment rest target with
          | .error e => .error e
          | .ok n => .ok ((if hasSentiment target (.obj fs) then 1 else 0) + n)
      | _ => .error "AttributeError: object has no attribute get"

/-- Count of alerts in a list whose sentiment equals `target`. -/
def countWithSentiment (alerts : List Json) (target : String) : Nat :=
  alerts.countP (hasSentiment target)

/-- The result record assembled by `analyze_risk_exposure`
(tool_functions.py lines 512-528), analysis timestamp aside. -/
structure RiskAnalysis where
  overall_risk_level : String
  risk_score : Int
  key_findings : List String
  action_items : List String
  concentration_risk : Int
  news_sentiment_impact : Int
  volatility_exposure : Rat
  liquidity_risk : Rat
  market_risk : Rat
deriving Repr, DecidableEq

/-- Risk level thresholds from `analyze_risk_exposure`
(tool_functions.py lines 461-468). -/
def riskLevelOf (score : Int) : String :=
  if score < 25 then "Low"
  else if score < 50 then "Medium"
  else if score < 75 then "High"
  else "Critical"

/-- The pure computation of `analyze_risk_exposure` once `total_holdings`,
`negative_alerts` and `positive_alerts` have been extracted
(tool_functions.py lines 444-528).  The `round(x, 1)` calls on the last
three exposure metrics are identity on these values, which carry exactly
one decimal digit. -/
def risk_core (total_holdings negative_alerts positive_alerts : Nat) : RiskAnalysis :=
  let th : Int := total_holdings
  let neg : Int := negative_alerts
  let pos : Int := positive_alerts
  let base_risk : Int := 30
  let concentration_risk : Int := min 20 (max 0 ((th - 5) * 2))
  let news_risk : Int := min 30 (neg * 10)
  let news_benefit : Int := min 15 (pos * 5)
  let risk_score : Int := min 100 (max 0 (base_risk + concentration_risk + news_risk - news_benefit))
  let overall_risk_level := riskLevelOf risk_score
  let finding1 :=
    if total_holdings < 5 then "Portfolio shows low diversification with limited number of holdings"
    else if total_holdings > 15 then "Portfolio may be over-diversified, potentially diluting returns"
    else "Portfolio shows adequate diversification across holdings"
  let finding2 :=
    if negative_alerts > positive_alerts then "Negative news sentiment outweighs positive sentiment for portfolio holdings"
    else if positive_alerts > negative_alerts then "Positive news sentiment outweighs negative sentiment for portfolio holdings"
    else "Neutral news sentiment balance for portfolio holdings"
  let finding3 :=
    if risk_score > 70 then "High risk exposure detected, immediate attention recommended"
    else if risk_score > 40 then "Moderate risk exposure detected, monitoring recommended"
    else "Low risk exposure detected, portfolio appears well-balanced"
  let items1 := if concentration_risk > 10 then ["Consider diversifying portfolio to reduce concentration risk"] else []
  let items2 := if negative_alerts > 2 then ["Review holdings with negative news sentiment and consider rebalancing"] else []
  let items3 := if risk_score > 50 then
      ["Implement risk mitigation strategies for high-risk holdings",
       "Consider setting up stop-loss orders for volatile positions"] else []
  let items4 := if risk_score < 30 then ["Current risk level is low, consider opportunities for strategic growth"] else []
  { overall_risk_level := overall_risk_level
    risk_score := risk_score
    key_findings := [finding1, finding2, finding3]
    action_items := items1 ++ items2 ++ items3 ++ items4
    concentration_risk := concentration_risk
    news_sentiment_impact := news_risk - news_benefit
    volatility_exposure := (risk_score : Rat) * (7 / 10)
    liquidity_risk := (risk_score : Rat) * (3 / 10)
    market_risk := (risk_score : Rat) * (5 / 10) }

/-- The alert-side extraction of `analyze_risk_exposure`
(tool_functions.py lines 440-446): `len(alerts)` is forced by the debug
f-string on line 440, then the alerts are iterated twice counting
Negative and Positive sentiments. -/
def count_alert_sentiments (alerts : Json) : Except String (Nat × Nat) :=
  match alerts.pyLen with
  | .error e => .error e
  | .ok _alertsLen =>
      match alerts.pyIter with
      | .error e => .error e
      | .ok items =>
          match countSentiment items "Negative" with
          | .error e => .error e
          | .ok negative_alerts =>
              match countSentiment items "Positive" with
              | .error e => .error e
              | .ok positive_alerts => .ok (negative_alerts, positive_alerts)

/-- Embedding of `analyze_risk_exposure` (tool_functions.py lines 363-543)
from the point where the two documents have been parsed: extract
`holdings` and `alerts` with dict-get defaulting to `[]`, take
`len(holdings)`, count the alert sentiments, then run the pure risk
computation.  The string-level validation (blank inputs, JSON parse
failures) happens before this point in the source. -/
def analyze_risk_exposure (portfolioDoc newsDoc : Json) : Except String RiskAnalysis :=
  match portfolioDoc.getD "holdings" (.arr []) with
  | .error e => .error e
  | .ok holdings =>
      match newsDoc.getD "alerts" (.arr []) with
      | .error e => .error e
      | .ok alerts =>
          match holdings.pyLen with
          | .error e => .error e
          | .ok total_holdings =>
              match count_alert_sentiments alerts with
              | .error e => .error e
              | .ok (negative_alerts, positive_alerts) =>
                  .ok (risk_core total_holdings negative_alerts positive_alerts)

/-- The clamp function used by the specification's formula for the risk
score: clamp(lo, hi, x) confines x to [lo, hi]. -/
def clamp (lo hi x : Int) : Int := min hi (max lo x)

/-- Rank of a risk level name in the ascending Low/Medium/High/Critical
order, used to state that the level is a monotone step function of the
score. -/
def levelRank (level : String) : Nat :=
  if level = "Low" then 0
  else if level = "Medium" then 1
  else if level = "High" then 2
  else if level = "Critical" then 3
  else 4

/-- The concentration term of the risk score as a function of the
holdings count (tool_functions.py line 452). -/
def concentrationRiskOf (h : Nat) : Int :=
  min 20 (max 0 (((h : Int) - 5) * 2))

/-- One market news alert as constructed by `scan_market_news`
(tool_functions.py lines 253-347). -/
structure NewsAlert where
  ticker : String
  alert_type : String
  severity : String
  headline : String
  sentiment : String
  impact_score : Rat
  source : String
deriving Repr, DecidableEq

/-- The news document assembled by `scan_market_news`
(tool_functions.py lines 247-250). -/
structure NewsData where
  scan_timestamp : String
  alerts : List NewsAlert
deriving Repr, DecidableEq

/-- The generic alert produced for a ticker outside the fixed table
(tool_functions.py lines 336-347). -/
def genericAlert (ticker : String) : NewsAlert :=
  { ticker := ticker, alert_type := "Market Movement", severity := "Low",
    headline := ticker ++ " Shows Unusual Trading Volume Today",
    sentiment := "Neutral", impact_score := 1/10, source := "MarketWatch" }

/-- The tickers with a canned alert set in `scan_market_news`. -/
def knownTickers : List String := ["AAPL", "MSFT", "GOOGL", "AMZN", "JPM"]

/-- The fixed per-ticker alert table of `scan_market_news`
(tool_functions.py lines 256-347): the five known tickers get their
canned alert sets, any other ticker exactly one generic alert. -/
def alerts_for (ticker : String) : List NewsAlert :=
  if ticker = "AAPL" then
    [{ ticker := "AAPL", alert_type := "Earnings Report", severity := "Medium",
       headline := "Apple Inc. Reports Q4 Earnings Beat Expectations",
       sentiment := "Positive", impact_score := 3/4, source := "Financial Times" },
     { ticker := "AAPL", alert_type := "Product Launch", severity := "High",
       headline := "Apple Announces New iPhone Model with Advanced AI Features",
       sentiment := "Positive", impact_score := 17/20, source := "TechCrunch" }]
  else if ticker = "MSFT" then
    [{ ticker := "MSFT", alert_type := "Regulatory", severity := "Medium",
       headline := "Microsoft Faces EU Antitrust Investigation Over Cloud Practices",
       sentiment := "Negative", impact_score := -13/20, source := "Reuters" },
     { ticker := "MSFT", alert_type := "Partnership", severity := "Medium",
       headline := "Microsoft Announces Strategic Partnership with OpenAI Competitor",
       sentiment := "Positive", impact_score := 3/5, source := "Bloomberg" }]
  else if ticker = "GOOGL" then
    [{ ticker := "GOOGL", alert_type := "Legal", severity := "High",
       headline := "Alphabet Faces Record $5 Billion Fine in EU Antitrust Case",
       sentiment := "Negative", impact_score := -4/5, source := "Wall Street Journal" }]
  else if ticker = "AMZN" then
    [{ ticker := "AMZN", alert_type := "Expansion", severity := "Medium",
       headline := "Amazon Expands Grocery Store Chain to 50 New Locations",
       sentiment := "Positive", impact_score := 11/20, source := "CNBC" }]
  else if ticker = "JPM" then
    [{ ticker := "JPM", alert_type := "Financial Results", severity := "Medium",
       headline := "JPMorgan Chase Reports Record Quarterly Profits",
       sentiment := "Positive", impact_score := 7/10, source := "Financial Times" }]
  else
    [genericAlert ticker]

/-- Embedding of `scan_market_news` (tool_functions.py lines 193-360)
for a list of ticker strings: the empty list and blank tickers are
rejected, otherwise the alerts are the concatenation of each ticker's
canned alert set in input order.  `now` is the scan timestamp. -/
def scan_market_news (tickers : List String) (now : String) : Except String NewsData :=
  if tickers.isEmpty then
    .error "ValueError: tickers list cannot be empty"
  else if tickers.any isBlank then
    .error "ValueError: Ticker symbols cannot be empty or contain only whitespace"
  else
    .ok { scan_timestamp := now, alerts := tickers.flatMap alerts_for }

/-- Wire encoding of a news alert as written by `json.dumps` in
`scan_market_news`. -/
def NewsAlert.toJson (a : NewsAlert) : Json :=
  .obj [("ticker", .str a.ticker), ("alert_type", .str a.alert_type),
        ("severity", .str a.severity), ("headline", .str a.headline),
        ("sentiment", .str a.sentiment), ("impact_score", .num a.impact_score),
        ("source", .str a.source)]

/-- Wire encoding of the news document. -/
def NewsData.toJson (nd : NewsData) : Json :=
  .obj [("scan_timestamp", .str nd.scan_timestamp),
        ("alerts", .arr (nd.alerts.map NewsAlert.toJson))]

/-! Reporting agent (reporting_agent.py). -/

mutual

/-- Compact JSON serialization standing for Python's `json.dumps`.  The
exact layout (Python uses indent=2) is irrelevant to every claim: only
equality of serialized outputs and the serialized document's content are
ever stated. -/
def Json.dumps : Json → String
  | .null => "null"
  | .bool true => "true"
  | .bool false => "false"
  | .num q => toString q
  | .str s => "\"" ++ s ++ "\""
  | .arr xs => "[" ++ dumpsList xs ++ "]"
  | .obj fs => "\x7b" ++ dumpsFields fs ++ "\x7d"

def dumpsList : List Json → String
  | [] => ""
  | [x] => Json.dumps x
  | x :: y :: xs => Json.dumps x ++ ", " ++ dumpsList (y :: xs)

def dumpsFields : List (String × Json) → String
  | [] => ""
  | [(k, v)] => "\"" ++ k ++ "\": " ++ Json.dumps v
  | (k, v) :: f :: fs => "\"" ++ k ++ "\": " ++ Json.dumps v ++ ", " ++ dumpsFields (f :: fs)

end

/-- Constructor-time backend selection state of `AzureReportingAgent`:
whether the Azure path was selected and a client exists, and whether an
OpenAI client was initialized (reporting_agent.py lines 55-116). -/
structure AgentConfig where
  use_azure : Bool
  has_client : Bool
  has_openai_client : Bool

/-- Outcome of one external backend call: a returned response string or
a raised exception. -/
inductive BackendOutcome where
  | ok (response : String) : BackendOutcome
  | raised (err : String) : BackendOutcome

/-- The fixed mock report dictionary built by
`AzureReportingAgent._generate_mock_response` (reporting_agent.py lines
273-319); `now` is the `datetime.now().isoformat()` timestamp, the only
non-constant part.  The method's prompt argument is unused. -/
def mock_report (now : String) : Json :=
  .obj [
    ("portfolio_summary", .obj [
      ("fund_name", .str "Mock Fund"),
      ("total_value", .num 1000000),
      ("holdings_count", .num 5),
      ("last_updated", .str now)]),
    ("holdings_analysis", .obj [
      ("top_holdings", .arr [
        .obj [("ticker", .str "AAPL"), ("weight", .num (152/10)), ("value", .num 152000)],
        .obj [("ticker", .str "MSFT"), ("weight", .num (128/10)), ("value", .num 128000)]]),
      ("sector_allocation", .arr [
        .obj [("sector", .str "Technology"), ("weight", .num (452/10))],
        .obj [("sector", .str "Financials"), ("weight", .num (185/10))]])]),
    ("market_insights", .obj [
      ("news_alerts", .arr [
        .obj [("ticker", .str "AAPL"), ("alert_type", .str "Earnings Report"),
              ("severity", .str "Medium"),
              ("headline", .str "Apple Inc. Reports Q4 Earnings Beat Expectations"),
              ("sentiment", .str "Positive")]])]),
    ("risk_assessment", .obj [
      ("overall_risk_level", .str "Medium"),
      ("risk_score", .num 45),
      ("key_findings", .arr [
        .str "Portfolio shows adequate diversification across holdings"])]),
    ("recommendations", .arr [
      .str "Consider diversifying portfolio to reduce concentration risk",
      .str "Review holdings with negative news sentiment and consider rebalancing"])]

/-- `AzureReportingAgent._generate_mock_response`: serialize the fixed
mock dictionary; the prompt is ignored. -/
def generate_mock_response (_prompt now : String) : String :=
  Json.dumps (mock_report now)

/-- Embedding of `AzureReportingAgent.generate_response`
(reporting_agent.py lines 166-197).  The two external backend calls are
modelled by `BackendOutcome` parameters: `.ok s` means the call
returned the string s, `.raised e` that it raised, which the method's
try/except converts into the local mock response.  The mock generator
itself never raises (it serializes a fixed dictionary). -/
def generate_response (cfg : AgentConfig) (azureRes openaiRes : BackendOutcome)
    (prompt now : String) : Except String String :=
  if prompt == "" || isBlank prompt then
    .error "Prompt cannot be empty or contain only whitespace"
  else if cfg.use_azure && cfg.has_client then
    match azureRes with
    | .ok s => .ok s
    | .raised _ => .ok (generate_mock_response prompt now)
  else if cfg.has_openai_client then
    match openaiRes with
    | .ok s => .ok s
    | .raised _ => .ok (generate_mock_response prompt now)
  else
    .ok (generate_mock_response prompt now)

/-- Field lookup on a JSON object, `none` on other values; used to
state properties of serialized report content. -/
def Json.getField (j : Json) (k : String) : Option Json :=
  match j with
  | .obj fs => lookupField fs k
  | _ => none

/-- Replace the value of field `k` in a JSON object (identity when the
value is not an object or lacks the field). -/
def Json.setField (j : Json) (k : String) (v : Json) : Json :=
  match j with
  | .obj fs => .obj (fs.map (fun p => if p.1 = k then (p.1, v) else p))
  | _ => j

/-- Comparator for C8, following the claim wording: blank out the
portfolio summary's last_updated timestamp, so that two mock reports
being identical apart from that timestamp is an equality. -/
def maskLastUpdated (j : Json) : Json :=
  match j.getField "portfolio_summary" with
  | some s => j.setField "portfolio_summary" (s.setField "last_updated" (.str ""))
  | none => j

/-! Scan orchestrator (orchestrator_agent.py) and batch driver (main.py).
The holdings provider document, the news scanner and the reporting
agent response are passed as parameters: the provider returns a fixed
five-holding fixture in the source, the scanner and the agent are the
components whose invocation the claims observe. -/

/-- The `holding.get("ticker")` step of the ticker extraction
(orchestrator_agent.py line 91). -/
def ticker_of (holding : Json) : Except String (Option Json) :=
  holding.getOpt "ticker"

/-- Embedding of the list comprehension
`[holding.get("ticker") for holding in holdings if holding.get("ticker")]`
(orchestrator_agent.py line 91): keep each truthy ticker value in
order. -/
def extract_tickers (holdings : List Json) : Except String (List Json) :=
  match holdings with
  | [] => .ok []
  | h :: rest =>
      match ticker_of h with
      | .error e => .error e
      | .ok t =>
          match extract_tickers rest with
          | .error e => .error e
          | .ok ts =>
              .ok (match t with
                   | some v => if v.truthy then v :: ts else ts
                   | none => ts)

/-- The sentinel news document substituted when no tickers are found:
`json.dumps` of a dict with empty timestamp and empty alerts
(orchestrator_agent.py line 102). -/
def sentinelNewsDoc : Json :=
  .obj [("scan_timestamp", .str ""), ("alerts", .arr [])]

/-- Step 2 of `scan_portfolio` (orchestrator_agent.py lines 100-104):
with no tickers the scanner is not invoked and the sentinel document is
substituted; otherwise the scanner runs.  The Bool records whether the
scanner was invoked. -/
def news_step (tickers : List Json) (scanner : List Json → Except String Json) :
    Except String (Bool × Json) :=
  if tickers.isEmpty then .ok (false, sentinelNewsDoc)
  else
    match scanner tickers with
    | .error e => .error e
    | .ok ndoc => .ok (true, ndoc)

/-- The terminal result of one orchestration run
(orchestrator_agent.py lines 124-128). -/
structure ScanResult where
  fund_name : String
  report : String
  action_items : List String
deriving Repr, DecidableEq, Inhabited

/-- Observable outcome of one `scan_portfolio` run: whether the news
scanner was invoked, the news document passed to risk analysis, and the
assembled result. -/
structure PipelineTrace where
  newsScannerInvoked : Bool
  newsDoc : Json
  result : ScanResult

/-- The body of `PortfolioScanOrchestrator.scan_portfolio`
(orchestrator_agent.py lines 80-131) after fund-name validation:
extract tickers from the holdings, run or skip the news scan, analyze
risk, obtain the report, and assemble the result whose action items are
copied from the risk analysis. -/
def scan_portfolio_steps (fund_name : String) (portfolioDoc : Json)
    (scanner : List Json → Except String Json)
    (reportRes : Except String String) : Except String PipelineTrace :=
  match portfolioDoc.getD "holdings" (.arr []) with
  | .error e => .error e
  | .ok holdingsJson =>
      match holdingsJson.pyIter with
      | .error e => .error e
      | .ok holdings =>
          match extract_tickers holdings with
          | .error e => .error e
          | .ok tickers =>
              match news_step tickers scanner with
              | .error e => .error e
              | .ok (invoked, newsDoc) =>
                  match analyze_risk_exposure portfolioDoc newsDoc with
                  | .error e => .error e
                  | .ok risk =>
                      match reportRes with
                      | .error e => .error e
                      | .ok report =>
                          .ok { newsScannerInvoked := invoked, newsDoc := newsDoc,
                                result := { fund_name := fund_name, report := report,
                                            action_items := risk.action_items } }

/-- The wrapped error message of `scan_portfolio`
(orchestrator_agent.py lines 133-136); the quotes around the fund name
are elided. -/
def wrapPipelineError (fund_name e : String) : String :=
  "Failed to scan portfolio for fund " ++ fund_name ++ ": " ++ e

/-- Embedding of `PortfolioScanOrchestrator.scan_portfolio`: blank fund
names are rejected before the pipeline; any pipeline failure is wrapped
with the fund name. -/
def scan_portfolio_from (fund_name : String) (portfolioDoc : Json)
    (scanner : List Json → Except String Json)
    (reportRes : Except String String) : Except String PipelineTrace :=
  if isBlank fund_name then
    .error "fund_name cannot be empty or contain only whitespace"
  else
    match scan_portfolio_steps fund_name portfolioDoc scanner reportRes with
    | .error e => .error (wrapPipelineError fund_name e)
    | .ok t => .ok t

/-- Embedding of `batch_process_portfolios` (main.py lines 124-184):
after validating the fund-name list, each fund is scanned in order; a
scan failure is converted into an error-shaped result entry so the
batch continues.  The per-fund scan is passed as a parameter. -/
def batch_process_portfolios (fund_names : List String)
    (scan : String → Except String ScanResult) : Except String (List ScanResult) :=
  if fund_names.isEmpty then
    .error "fund_names list cannot be empty"
  else if fund_names.any isBlank then
    .error "Fund name in list cannot be empty or contain only whitespace"
  else
    .ok (fund_names.map (fun n =>
      match scan n with
      | .ok res => res
      | .error e => { fund_name := n, report := "Error: " ++ e, action_items := [] }))

/-! Concrete sample documents used by the witness theorems. -/

def pdSample : Json :=
  .obj [("fund_name", .str "Tech Growth Fund"),
        ("holdings", .arr [.obj [("ticker", .str "AAPL")], .obj [("ticker", .str "MSFT")]])]

def ndSample : Json :=
  .obj [("scan_timestamp", .str "2024-01-01T00:00:00"),
        ("alerts", .arr [.obj [("sentiment", .str "Negative")],
                         .obj [("sentiment", .str "Positive")]])]

/-- Sample single-holding, 100%-concentrated portfolio document. -/
def pdOneHolding : Json :=
  .obj [("fund_name", .str "Concentrated Fund"),
        ("holdings", .arr [.obj [("ticker", .str "XYZ"), ("weight", .num 100)]])]

/-- Sample news document with three negative high-severity alerts. -/
def ndThreeNegative : Json :=
  .obj [("alerts", .arr [
    .obj [("ticker", .str "XYZ"), ("sentiment", .str "Negative"), ("severity", .str "High")],
    .obj [("ticker", .str "XYZ"), ("sentiment", .str "Negative"), ("severity", .str "High"),
          ("headline", .str "Bad news one")],
    .obj [("ticker", .str "XYZ"), ("sentiment", .str "Negative"), ("severity", .str "High"),
          ("headline", .str "Bad news two")]])]

/-- Sample portfolio document with an empty holdings list, so no
tickers can be extracted. -/
def pdNoTickers : Json :=
  .obj [("fund_name", .str "Empty Fund"), ("holdings", .arr [])]

/-- Sample per-fund scan used by the batch witness: fund B fails, every
other fund succeeds. -/
def scanSample : String → Except String ScanResult := fun n =>
  if n = "B" then .error "boom in B"
  else .ok { fund_name := n, report := "report " ++ n, action_items := ["check"] }

/-! Helper lemmas about the risk scoring engine. -/

lemma countSentiment_eq (items : List Json) (target : String) :
    ∀ n : Nat, countSentiment items target = .ok n → n = countWithSentiment items target := by
  induction items with
  | nil =>
      intro n h
      simp [countSentiment] at h
      simp [countWithSentiment, ← h]
  | cons a rest ih =>
      intro n h
      cases a with
      | obj fs =>
          unfold countSentiment at h
          cases hrest : countSentiment rest target with
          | error e => rw [hrest] at h; simp at h
          | ok m =>
              rw [hrest] at h
              simp at h
              rw [← h, ih m hrest]
              simp [countWithSentiment, List.countP_cons]
              cases hsem : hasSentiment target (Json.obj fs) <;> simp [hsem] <;> omega
      | null => simp [countSentiment] at h
      | bool b => simp [countSentiment] at h
      | num q => simp [countSentiment] at h
      | str s => simp [countSentiment] at h
      | arr xs => simp [countSentiment] at h

lemma count_alert_sentiments_arr (as : List Json) (n p : Nat)
    (h : count_alert_sentiments (.arr as) = .ok (n, p)) :
    n = countWithSentiment as "Negative" ∧ p = countWithSentiment as "Positive" := by
  unfold count_alert_sentiments at h
  simp [Json.pyLen, Json.pyIter] at h
  cases hneg : countSentiment as "Negative" with
  | error e => rw [hneg] at h; simp at h
  | ok n2 =>
      rw [hneg] at h
      cases hpos : countSentiment as "Positive" with
      | error e => rw [hpos] at h; simp at h
      | ok p2 =>
          rw [hpos] at h
          simp at h
          obtain ⟨rfl, rfl⟩ := h
          exact ⟨countSentiment_eq as "Negative" n2 hneg, countSentiment_eq as "Positive" p2 hpos⟩

lemma analyze_ok_arr (pd nd : Json) (r : RiskAnalysis) (hs as : List Json)
    (hok : analyze_risk_exposure pd nd = .ok r)
    (hH : pd.getD "holdings" (.arr []) = .ok (.arr hs))
    (hA : nd.getD "alerts" (.arr []) = .ok (.arr as)) :
    r = risk_core hs.length (countWithSentiment as "Negative") (countWithSentiment as "Positive") := by
  unfold analyze_risk_exposure at hok
  rw [hH, hA] at hok
  simp [Json.pyLen] at hok
  cases hcnt : count_alert_sentiments (.arr as) with
  | error e => rw [hcnt] at hok; simp at hok
  | ok np =>
      obtain ⟨n, p⟩ := np
      rw [hcnt] at hok
      simp at hok
      obtain ⟨hn, hp⟩ := count_alert_sentiments_arr as n p hcnt
      rw [← hok, hn, hp]

lemma analyze_ok_holdings (pd nd : Json) (r : RiskAnalysis) (hs : List Json)
    (hok : analyze_risk_exposure pd nd = .ok r)
    (hH : pd.getD "holdings" (.arr []) = .ok (.arr hs)) :
    ∃ neg pos, r = risk_core hs.length neg pos := by
  unfold analyze_risk_exposure at hok
  rw [hH] at hok
  cases hA : nd.getD "alerts" (.arr []) with
  | error e => rw [hA] at hok; simp at hok
  | ok alerts =>
      rw [hA] at hok
      simp [Json.pyLen] at hok
      cases hcnt : count_alert_sentiments alerts with
      | error e => rw [hcnt] at hok; simp at hok
      | ok np =>
          obtain ⟨n, p⟩ := np
          rw [hcnt] at hok
          simp at hok
          exact ⟨n, p, hok.symm⟩

lemma analyze_ok_shape (pd nd : Json) (r : RiskAnalysis)
    (hok : analyze_risk_exposure pd nd = .ok r) :
    ∃ th neg pos, r = risk_core th neg pos := by
  unfold analyze_risk_exposure at hok
  cases hH : pd.getD "holdings" (.arr []) with
  | error e => rw [hH] at hok; simp at hok
  | ok holdings =>
      rw [hH] at hok
      simp at hok
      cases hA : nd.getD "alerts" (.arr []) with
      | error e => rw [hA] at hok; simp at hok
      | ok alerts =>
          rw [hA] at hok
          simp at hok
          cases hth : holdings.pyLen with
          | error e => rw [hth] at hok; simp at hok
          | ok th =>
              rw [hth] at hok
              simp at hok
              cases hcnt : count_alert_sentiments alerts with
              | error e => rw [hcnt] at hok; simp at hok
              | ok np =>
                  obtain ⟨n, p⟩ := np
                  rw [hcnt] at hok
                  simp at hok
                  exact ⟨th, n, p, hok.symm⟩


lemma risk_core_score_eq (h n p : Nat) :
    (risk_core h n p).risk_score =
      clamp 0 100 (30 + clamp 0 20 (((h : Int) - 5) * 2)
        + clamp 0 30 ((n : Int) * 10) - clamp 0 15 ((p : Int) * 5)) := by
  simp only [risk_core, clamp]
  omega

lemma risk_core_bounds (h n p : Nat) :
    0 ≤ (risk_core h n p).risk_score ∧ (risk_core h n p).risk_score ≤ 100 := by
  simp only [risk_core]
  omega

lemma risk_core_level (h n p : Nat) :
    (risk_core h n p).overall_risk_level = riskLevelOf (risk_core h n p).risk_score := rfl

lemma risk_core_conc (h n p : Nat) :
    (risk_core h n p).concentration_risk = concentrationRiskOf h := rfl

lemma riskLevel_mono (s1 s2 : Int) (hle : s1 ≤ s2) :
    levelRank (riskLevelOf s1) ≤ levelRank (riskLevelOf s2) := by
  unfold riskLevelOf
  split_ifs <;> first | decide | (exfalso; omega)

lemma riskLevelOf_bands (s : Int) :
    (s < 25 → riskLevelOf s = "Low") ∧
    (25 ≤ s → s < 50 → riskLevelOf s = "Medium") ∧
    (50 ≤ s → s < 75 → riskLevelOf s = "High") ∧
    (75 ≤ s → riskLevelOf s = "Critical") := by
  unfold riskLevelOf
  refine ⟨?_, ?_, ?_, ?_⟩ <;> intros <;> split_ifs <;> first | rfl | (exfalso; omega)

lemma hasSentiment_exclusive (a : Json) (t u : String) (hne : t ≠ u)
    (h : hasSentiment t a = true) : hasSentiment u a = false := by
  cases a with
  | obj fs =>
      simp only [hasSentiment, hasField] at h ⊢
      cases hl : lookupField fs "sentiment" with
      | none => simp [hl] at h
      | some v =>
          rw [hl] at h
          cases v <;> simp_all
  | null => simp [hasSentiment, hasField] at h
  | bool b => simp [hasSentiment, hasField] at h
  | num q => simp [hasSentiment, hasField] at h
  | str s => simp [hasSentiment, hasField] at h
  | arr xs => simp [hasSentiment, hasField] at h

/-! Claim theorems. -/

/-- C1: for every portfolio document and news document accepted by
`analyze_risk_exposure`, with h the number of entries in the holdings
list, n the count of Negative alerts and p the count of Positive alerts,
the returned risk score equals
clamp(0, 100, 30 + clamp(0, 20, (h - 5) * 2) + clamp(0, 30, n * 10) - clamp(0, 15, p * 5)). -/
theorem risk_score_matches_spec_formula (pd nd : Json) (r : RiskAnalysis) (hs as : List Json)
    (hok : analyze_risk_exposure pd nd = .ok r)
    (hH : pd.getD "holdings" (.arr []) = .ok (.arr hs))
    (hA : nd.getD "alerts" (.arr []) = .ok (.arr as)) :
    r.risk_score =
      clamp 0 100 (30 + clamp 0 20 (((hs.length : Int) - 5) * 2)
        + clamp 0 30 ((countWithSentiment as "Negative" : Int) * 10)
        - clamp 0 15 ((countWithSentiment as "Positive" : Int) * 5)) := by
  rw [analyze_ok_arr pd nd r hs as hok hH hA, risk_core_score_eq]

/-- Witness for C1 at a two-holding portfolio with one Negative and one
Positive alert: the computed score 35 matches the specification formula. -/
theorem risk_score_matches_spec_formula_witness :
    analyze_risk_exposure pdSample ndSample = .ok (risk_core 2 1 1) ∧
    (risk_core 2 1 1).risk_score =
      clamp 0 100 (30 + clamp 0 20 (((2 : Int) - 5) * 2)
        + clamp 0 30 ((1 : Int) * 10) - clamp 0 15 ((1 : Int) * 5)) :=
  ⟨rfl, risk_score_matches_spec_formula pdSample ndSample (risk_core 2 1 1)
    [.obj [("ticker", .str "AAPL")], .obj [("ticker", .str "MSFT")]]
    [.obj [("sentiment", .str "Negative")], .obj [("sentiment", .str "Positive")]]
    rfl rfl rfl⟩

/-- C2: every accepted input yields a risk score in [0, 100] whose level
is the half-open ascending threshold map (<25 Low, <50 Medium, <75 High,
else Critical), a monotone step function of the score. -/
theorem risk_level_thresholds (pd nd : Json) (r : RiskAnalysis)
    (hok : analyze_risk_exposure pd nd = .ok r) :
    (0 ≤ r.risk_score ∧ r.risk_score ≤ 100) ∧
    r.overall_risk_level = riskLevelOf r.risk_score ∧
    (∀ s : Int, (s < 25 → riskLevelOf s = "Low") ∧
      (25 ≤ s → s < 50 → riskLevelOf s = "Medium") ∧
      (50 ≤ s → s < 75 → riskLevelOf s = "High") ∧
      (75 ≤ s → riskLevelOf s = "Critical")) ∧
    (∀ s1 s2 : Int, s1 ≤ s2 → levelRank (riskLevelOf s1) ≤ levelRank (riskLevelOf s2)) := by
  obtain ⟨th, neg, pos, rfl⟩ := analyze_ok_shape pd nd r hok
  exact ⟨risk_core_bounds th neg pos, risk_core_level th neg pos,
    riskLevelOf_bands, riskLevel_mono⟩

/-- Witness for C2 at the sample documents: the score 35 is in bounds,
the level is Medium per the thresholds, and the rank map is monotone at
the sample scores 10 and 80. -/
theorem risk_level_thresholds_witness :
    analyze_risk_exposure pdSample ndSample = .ok (risk_core 2 1 1) ∧
    (0 ≤ (risk_core 2 1 1).risk_score ∧ (risk_core 2 1 1).risk_score ≤ 100) ∧
    (risk_core 2 1 1).overall_risk_level = riskLevelOf (risk_core 2 1 1).risk_score ∧
    riskLevelOf 35 = "Medium" ∧
    levelRank (riskLevelOf 10) ≤ levelRank (riskLevelOf 80) :=
  ⟨rfl,
   (risk_level_thresholds pdSample ndSample (risk_core 2 1 1) rfl).1,
   (risk_level_thresholds pdSample ndSample (risk_core 2 1 1) rfl).2.1,
   ((risk_level_thresholds pdSample ndSample (risk_core 2 1 1) rfl).2.2.1 35).2.1
     (by decide) (by decide),
   (risk_level_thresholds pdSample ndSample (risk_core 2 1 1) rfl).2.2.2 10 80 (by decide)⟩

/-- C6: a single-holding fund snapshot together with a news bundle of 3
negative high-severity alerts yields a risk score of at least 50 and an
overall risk level that is High or Critical. -/
theorem concentration_case (pd nd : Json) (r : RiskAnalysis) (hs as : List Json)
    (hok : analyze_risk_exposure pd nd = .ok r)
    (hH : pd.getD "holdings" (.arr []) = .ok (.arr hs))
    (hA : nd.getD "alerts" (.arr []) = .ok (.arr as))
    (hlen : hs.length = 1)
    (halen : as.length = 3)
    (halerts : ∀ a ∈ as, hasSentiment "Negative" a = true ∧ hasField "severity" "High" a = true) :
    50 ≤ r.risk_score ∧
    (r.overall_risk_level = "High" ∨ r.overall_risk_level = "Critical") := by
  have hr := analyze_ok_arr pd nd r hs as hok hH hA
  have hneg : countWithSentiment as "Negative" = 3 := by
    unfold countWithSentiment
    rw [List.countP_eq_length.mpr (fun a ha => (halerts a ha).1), halen]
  have hpos : countWithSentiment as "Positive" = 0 := by
    unfold countWithSentiment
    rw [List.countP_eq_zero.mpr]
    intro a ha
    simp [hasSentiment_exclusive a "Negative" "Positive" (by decide) (halerts a ha).1]
  rw [hr, hlen, hneg, hpos]
  exact ⟨by decide, Or.inl (by decide)⟩

/-- Witness for C6: the concrete one-holding portfolio and three
negative high-severity alerts give score 60 and level High. -/
theorem concentration_case_witness :
    analyze_risk_exposure pdOneHolding ndThreeNegative = .ok (risk_core 1 3 0) ∧
    50 ≤ (risk_core 1 3 0).risk_score ∧
    ((risk_core 1 3 0).overall_risk_level = "High" ∨
      (risk_core 1 3 0).overall_risk_level = "Critical") :=
  ⟨rfl, concentration_case pdOneHolding ndThreeNegative (risk_core 1 3 0)
    [.obj [("ticker", .str "XYZ"), ("weight", .num 100)]]
    [.obj [("ticker", .str "XYZ"), ("sentiment", .str "Negative"), ("severity", .str "High")],
     .obj [("ticker", .str "XYZ"), ("sentiment", .str "Negative"), ("severity", .str "High"),
           ("headline", .str "Bad news one")],
     .obj [("ticker", .str "XYZ"), ("sentiment", .str "Negative"), ("severity", .str "High"),
           ("headline", .str "Bad news two")]]
    rfl rfl rfl rfl rfl (by decide)⟩

/-- C9: parsed inputs that are JSON objects lacking the holdings and
alerts keys are accepted; the missing keys default to empty lists, so
the result has risk score 30 and overall risk level Medium rather than
a parse error (the empty object passed for both inputs is the special
case of empty field lists). -/
theorem missing_keys_default (fs gs : List (String × Json))
    (hH : lookupField fs "holdings" = none)
    (hA : lookupField gs "alerts" = none) :
    analyze_risk_exposure (.obj fs) (.obj gs) = .ok (risk_core 0 0 0) ∧
    (risk_core 0 0 0).risk_score = 30 ∧
    (risk_core 0 0 0).overall_risk_level = "Medium" := by
  refine ⟨?_, by decide, by decide⟩
  unfold analyze_risk_exposure
  simp only [Json.getD]
  rw [hH, hA]
  simp [count_alert_sentiments, Json.pyLen, Json.pyIter, countSentiment]

/-- Witness for C9: both inputs the empty JSON object. -/
theorem missing_keys_default_witness :
    analyze_risk_exposure (.obj []) (.obj []) = .ok (risk_core 0 0 0) ∧
    (risk_core 0 0 0).risk_score = 30 ∧
    (risk_core 0 0 0).overall_risk_level = "Medium" :=
  missing_keys_default [] [] rfl rfl

/-- C10: the concentration risk reported by `analyze_risk_exposure` is
a function of the holdings count alone: it is 0 for at most 5 holdings
(in particular for a single holding), monotonically non-decreasing in
the holdings count, and capped at 20. -/
theorem concentration_risk_properties (pd nd : Json) (r : RiskAnalysis) (hs : List Json)
    (hok : analyze_risk_exposure pd nd = .ok r)
    (hH : pd.getD "holdings" (.arr []) = .ok (.arr hs)) :
    r.concentration_risk = concentrationRiskOf hs.length ∧
    (hs.length ≤ 5 → r.concentration_risk = 0) ∧
    (∀ h1 h2 : Nat, h1 ≤ h2 → concentrationRiskOf h1 ≤ concentrationRiskOf h2) ∧
    (∀ h : Nat, concentrationRiskOf h ≤ 20) ∧
    concentrationRiskOf 1 = 0 := by
  obtain ⟨neg, pos, rfl⟩ := analyze_ok_holdings pd nd r hs hok hH
  refine ⟨risk_core_conc hs.length neg pos, ?_, ?_, ?_, by decide⟩
  · intro hle
    rw [risk_core_conc]
    unfold concentrationRiskOf
    omega
  · intro h1 h2 hle
    unfold concentrationRiskOf
    omega
  · intro h
    unfold concentrationRiskOf
    omega

/-- Witness for C10 at the two-holding sample portfolio: concentration
risk is 0, and the cap and monotonicity facts at sample counts. -/
theorem concentration_risk_properties_witness :
    analyze_risk_exposure pdSample ndSample = .ok (risk_core 2 1 1) ∧
    (risk_core 2 1 1).concentration_risk = concentrationRiskOf 2 ∧
    (risk_core 2 1 1).concentration_risk = 0 ∧
    concentrationRiskOf 3 ≤ concentrationRiskOf 10 ∧
    concentrationRiskOf 50 ≤ 20 ∧
    concentrationRiskOf 1 = 0 :=
  ⟨rfl,
   (concentration_risk_properties pdSample ndSample (risk_core 2 1 1)
     [.obj [("ticker", .str "AAPL")], .obj [("ticker", .str "MSFT")]] rfl rfl).1,
   (concentration_risk_properties pdSample ndSample (risk_core 2 1 1)
     [.obj [("ticker", .str "AAPL")], .obj [("ticker", .str "MSFT")]] rfl rfl).2.1 (by decide),
   (concentration_risk_properties pdSample ndSample (risk_core 2 1 1)
     [.obj [("ticker", .str "AAPL")], .obj [("ticker", .str "MSFT")]] rfl rfl).2.2.1 3 10 (by decide),
   (concentration_risk_properties pdSample ndSample (risk_core 2 1 1)
     [.obj [("ticker", .str "AAPL")], .obj [("ticker", .str "MSFT")]] rfl rfl).2.2.2.1 50,
   (concentration_risk_properties pdSample ndSample (risk_core 2 1 1)
     [.obj [("ticker", .str "AAPL")], .obj [("ticker", .str "MSFT")]] rfl rfl).2.2.2.2⟩

/-! Lemmas about the news scanner. -/

lemma alerts_for_nonempty (t : String) : 1 ≤ (alerts_for t).length := by
  unfold alerts_for
  split_ifs <;> simp

lemma alerts_for_ticker (t : String) (a : NewsAlert) (ha : a ∈ alerts_for t) : a.ticker = t := by
  unfold alerts_for at ha
  split_ifs at ha with h1 h2 h3 h4 h5
  · subst h1
    simp at ha
    rcases ha with rfl | rfl <;> rfl
  · subst h2
    simp at ha
    rcases ha with rfl | rfl <;> rfl
  · subst h3
    simp at ha
    subst ha
    rfl
  · subst h4
    simp at ha
    subst ha
    rfl
  · subst h5
    simp at ha
    subst ha
    rfl
  · simp at ha
    subst ha
    rfl

lemma alerts_for_unknown (t : String) (h : t ∉ knownTickers) :
    alerts_for t = [genericAlert t] := by
  unfold alerts_for
  simp [knownTickers] at h
  obtain ⟨h1, h2, h3, h4, h5⟩ := h
  rw [if_neg h1, if_neg h2, if_neg h3, if_neg h4, if_neg h5]

lemma length_le_flatMap_alerts (ts : List String) :
    ts.length ≤ (ts.flatMap alerts_for).length := by
  induction ts with
  | nil => simp
  | cons t ts ih =>
      have h1 := alerts_for_nonempty t
      simp only [List.flatMap_cons, List.length_append, List.length_cons]
      omega

/-- C4: for every accepted ticker list, the output alerts are the
concatenation of each ticker's canned alert set in input order (so each
ticker's alerts are consecutive and follow the input order), every
alert carries its ticker, the alert count is at least the ticker count,
every requested ticker appears among the alert tickers, and a ticker
outside the fixed table contributes exactly one generic alert of type
Market Movement with Neutral sentiment, Low severity and impact score
0.10. -/
theorem scan_news_structure (tickers : List String) (now : String) (nd : NewsData)
    (hok : scan_market_news tickers now = .ok nd) :
    nd.alerts = tickers.flatMap alerts_for ∧
    (∀ t a, a ∈ alerts_for t → a.ticker = t) ∧
    tickers.length ≤ nd.alerts.length ∧
    (∀ t ∈ tickers, ∃ a ∈ nd.alerts, a.ticker = t) ∧
    (∀ t, t ∉ knownTickers → alerts_for t = [genericAlert t]) ∧
    (∀ t, (genericAlert t).alert_type = "Market Movement" ∧
      (genericAlert t).sentiment = "Neutral" ∧
      (genericAlert t).severity = "Low" ∧
      (genericAlert t).impact_score = 1/10) := by
  have halerts : nd.alerts = tickers.flatMap alerts_for := by
    unfold scan_market_news at hok
    split_ifs at hok <;> simp at hok
    rw [← hok]
  refine ⟨halerts, fun t a => alerts_for_ticker t a, ?_, ?_, alerts_for_unknown,
    fun t => ⟨rfl, rfl, rfl, rfl⟩⟩
  · rw [halerts]
    exact length_le_flatMap_alerts tickers
  · intro t ht
    have hne : alerts_for t ≠ [] := by
      have := alerts_for_nonempty t
      intro hnil
      rw [hnil] at this
      simp at this
    obtain ⟨a, ha⟩ := List.exists_mem_of_ne_nil (alerts_for t) hne
    refine ⟨a, ?_, alerts_for_ticker t a ha⟩
    rw [halerts]
    exact List.mem_flatMap.mpr ⟨t, ht, ha⟩

/-- Witness for C4 at the ticker list with AAPL and the unknown ticker
ZZZ. -/
theorem scan_news_structure_witness :
    scan_market_news ["AAPL", "ZZZ"] "T" =
      .ok { scan_timestamp := "T", alerts := ["AAPL", "ZZZ"].flatMap alerts_for } ∧
    (["AAPL", "ZZZ"] : List String).length ≤ (["AAPL", "ZZZ"].flatMap alerts_for).length ∧
    (∃ a ∈ (["AAPL", "ZZZ"].flatMap alerts_for), a.ticker = "ZZZ") ∧
    alerts_for "ZZZ" = [genericAlert "ZZZ"] ∧
    (genericAlert "ZZZ").impact_score = 1/10 :=
  ⟨rfl,
   (scan_news_structure ["AAPL", "ZZZ"] "T"
      { scan_timestamp := "T", alerts := ["AAPL", "ZZZ"].flatMap alerts_for } rfl).2.2.1,
   (scan_news_structure ["AAPL", "ZZZ"] "T"
      { scan_timestamp := "T", alerts := ["AAPL", "ZZZ"].flatMap alerts_for } rfl).2.2.2.1
     "ZZZ" (by decide),
   (scan_news_structure ["AAPL", "ZZZ"] "T"
      { scan_timestamp := "T", alerts := ["AAPL", "ZZZ"].flatMap alerts_for } rfl).2.2.2.2.1
     "ZZZ" (by decide),
   ((scan_news_structure ["AAPL", "ZZZ"] "T"
      { scan_timestamp := "T", alerts := ["AAPL", "ZZZ"].flatMap alerts_for } rfl).2.2.2.2.2
     "ZZZ").2.2.2⟩

/-! Lemmas about the reporting agent. -/

lemma blank_guard (s : String) : (s == "" || isBlank s) = isBlank s := by
  by_cases h : s = ""
  · subst h; rfl
  · have hne : (s == "") = false := by simpa using h
    rw [hne, Bool.false_or]

lemma generate_response_nonblank (cfg : AgentConfig) (azureRes openaiRes : BackendOutcome)
    (prompt now : String) (hb : isBlank prompt = false) :
    generate_response cfg azureRes openaiRes prompt now =
      .ok (if cfg.use_azure && cfg.has_client then
             match azureRes with
             | .ok s => s
             | .raised _ => generate_mock_response prompt now
           else if cfg.has_openai_client then
             match openaiRes with
             | .ok s => s
             | .raised _ => generate_mock_response prompt now
           else generate_mock_response prompt now) := by
  unfold generate_response
  rw [blank_guard, hb]
  simp only [Bool.false_eq_true, if_false]
  split_ifs with h1 h2
  · cases azureRes <;> rfl
  · cases openaiRes <;> rfl
  · rfl

/-- C3: `generate_response` fails with the invalid-argument error
exactly when the prompt is blank; on a non-blank prompt it always
returns a string, and a raised exception on the selected backend path
(Azure when selected, OpenAI otherwise) is caught and replaced by the
local mock report rather than propagated. -/
theorem generate_response_contract (cfg : AgentConfig) (azureRes openaiRes : BackendOutcome)
    (prompt now : String) :
    (generate_response cfg azureRes openaiRes prompt now =
        .error "Prompt cannot be empty or contain only whitespace" ↔ isBlank prompt = true) ∧
    (isBlank prompt = false →
      ∃ s, generate_response cfg azureRes openaiRes prompt now = .ok s) ∧
    (isBlank prompt = false → ∀ e, azureRes = .raised e →
      (cfg.use_azure && cfg.has_client) = true →
      generate_response cfg azureRes openaiRes prompt now =
        .ok (generate_mock_response prompt now)) ∧
    (isBlank prompt = false → ∀ e, openaiRes = .raised e →
      (cfg.use_azure && cfg.has_client) = false → cfg.has_openai_client = true →
      generate_response cfg azureRes openaiRes prompt now =
        .ok (generate_mock_response prompt now)) := by
  refine ⟨⟨?_, ?_⟩, ?_, ?_, ?_⟩
  · intro h
    cases hb : isBlank prompt with
    | true => rfl
    | false =>
        rw [generate_response_nonblank cfg azureRes openaiRes prompt now hb] at h
        simp at h
  · intro hb
    unfold generate_response
    rw [blank_guard, hb]
    rfl
  · intro hb
    exact ⟨_, generate_response_nonblank cfg azureRes openaiRes prompt now hb⟩
  · intro hb e he hsel
    rw [generate_response_nonblank cfg azureRes openaiRes prompt now hb, hsel, he]
    simp
  · intro hb e he hsel hoai
    rw [generate_response_nonblank cfg azureRes openaiRes prompt now hb, hsel, hoai, he]
    simp

/-- Witness for C3: Azure selected and raising, prompt non-blank; the
call succeeds with the mock report, and the blank-prompt iff holds. -/
theorem generate_response_contract_witness :
    (generate_response ⟨true, true, false⟩ (.raised "boom") (.ok "unused") "hello" "T" =
        .error "Prompt cannot be empty or contain only whitespace" ↔
      isBlank "hello" = true) ∧
    (∃ s, generate_response ⟨true, true, false⟩ (.raised "boom") (.ok "unused") "hello" "T" =
      .ok s) ∧
    generate_response ⟨true, true, false⟩ (.raised "boom") (.ok "unused") "hello" "T" =
      .ok (generate_mock_response "hello" "T") :=
  ⟨(generate_response_contract ⟨true, true, false⟩ (.raised "boom") (.ok "unused") "hello" "T").1,
   (generate_response_contract ⟨true, true, false⟩ (.raised "boom") (.ok "unused") "hello" "T").2.1
     (by decide),
   (generate_response_contract ⟨true, true, false⟩ (.raised "boom") (.ok "unused") "hello" "T").2.2.1
     (by decide) "boom" rfl rfl⟩

/-- C8: with neither the Azure nor the OpenAI client configured, the
report returned by `generate_response` does not depend on the prompt:
any non-blank prompt yields the serialized mock report, reports
produced at the same timestamp are identical, reports at different
timestamps agree after masking the portfolio summary's last_updated
field, and the report's fund name is the constant Mock Fund. -/
theorem mock_fallback_prompt_independence (cfg : AgentConfig)
    (azureRes openaiRes : BackendOutcome) (p1 p2 now1 now2 : String)
    (hAz : (cfg.use_azure && cfg.has_client) = false)
    (hOa : cfg.has_openai_client = false)
    (h1 : isBlank p1 = false) (h2 : isBlank p2 = false) :
    generate_response cfg azureRes openaiRes p1 now1 = .ok (Json.dumps (mock_report now1)) ∧
    generate_response cfg azureRes openaiRes p2 now2 = .ok (Json.dumps (mock_report now2)) ∧
    (now1 = now2 →
      generate_response cfg azureRes openaiRes p1 now1 =
        generate_response cfg azureRes openaiRes p2 now2) ∧
    maskLastUpdated (mock_report now1) = maskLastUpdated (mock_report now2) ∧
    ((mock_report now1).getField "portfolio_summary").bind
      (fun s => Json.getField s "fund_name") = some (.str "Mock Fund") := by
  have e1 : generate_response cfg azureRes openaiRes p1 now1 =
      .ok (Json.dumps (mock_report now1)) := by
    rw [generate_response_nonblank cfg azureRes openaiRes p1 now1 h1, hAz, hOa]
    rfl
  have e2 : generate_response cfg azureRes openaiRes p2 now2 =
      .ok (Json.dumps (mock_report now2)) := by
    rw [generate_response_nonblank cfg azureRes openaiRes p2 now2 h2, hAz, hOa]
    rfl
  refine ⟨e1, e2, ?_, rfl, rfl⟩
  intro hnow
  rw [e1, e2, hnow]

/-- Witness for C8 with no backend configured: two distinct non-blank
prompts and timestamps. -/
theorem mock_fallback_prompt_independence_witness :
    generate_response ⟨false, false, false⟩ (.ok "u1") (.ok "u2") "report A" "T1" =
      .ok (Json.dumps (mock_report "T1")) ∧
    maskLastUpdated (mock_report "T1") = maskLastUpdated (mock_report "T2") ∧
    ((mock_report "T1").getField "portfolio_summary").bind
      (fun s => Json.getField s "fund_name") = some (.str "Mock Fund") :=
  ⟨(mock_fallback_prompt_independence ⟨false, false, false⟩ (.ok "u1") (.ok "u2")
      "report A" "report B" "T1" "T2" rfl rfl (by decide) (by decide)).1,
   (mock_fallback_prompt_independence ⟨false, false, false⟩ (.ok "u1") (.ok "u2")
      "report A" "report B" "T1" "T2" rfl rfl (by decide) (by decide)).2.2.2.1,
   (mock_fallback_prompt_independence ⟨false, false, false⟩ (.ok "u1") (.ok "u2")
      "report A" "report B" "T1" "T2" rfl rfl (by decide) (by decide)).2.2.2.2⟩

/-! Orchestrator and batch theorems. -/

/-- C5: whenever the ticker list extracted from the holdings is empty,
`scan_portfolio` does not invoke the news scanner and passes the
sentinel news document (empty timestamp, empty alerts) to the risk
analysis. -/
theorem empty_tickers_skips_news (fund_name : String) (portfolioDoc : Json)
    (scanner : List Json → Except String Json) (reportRes : Except String String)
    (trace : PipelineTrace) (holdingsJson : Json) (holdings : List Json)
    (hok : scan_portfolio_from fund_name portfolioDoc scanner reportRes = .ok trace)
    (hH : portfolioDoc.getD "holdings" (.arr []) = .ok holdingsJson)
    (hiter : holdingsJson.pyIter = .ok holdings)
    (hticks : extract_tickers holdings = .ok []) :
    trace.newsScannerInvoked = false ∧ trace.newsDoc = sentinelNewsDoc ∧
    news_step [] scanner = .ok (false, sentinelNewsDoc) := by
  unfold scan_portfolio_from at hok
  cases hb : isBlank fund_name with
  | true => rw [hb] at hok; simp at hok
  | false =>
      rw [hb] at hok
      simp only [Bool.false_eq_true, if_false] at hok
      cases hsteps : scan_portfolio_steps fund_name portfolioDoc scanner reportRes with
      | error e => rw [hsteps] at hok; simp at hok
      | ok t =>
          rw [hsteps] at hok
          simp at hok
          unfold scan_portfolio_steps at hsteps
          rw [hH] at hsteps
          simp at hsteps
          rw [hiter] at hsteps
          simp at hsteps
          rw [hticks] at hsteps
          simp [news_step] at hsteps
          cases hrisk : analyze_risk_exposure portfolioDoc sentinelNewsDoc with
          | error e => rw [hrisk] at hsteps; simp at hsteps
          | ok risk =>
              rw [hrisk] at hsteps
              cases reportRes with
              | error e => simp at hsteps
              | ok report =>
                  simp at hsteps
                  rw [← hok, ← hsteps]
                  exact ⟨rfl, rfl, rfl⟩

/-- Witness for C5: a portfolio with an empty holdings list; the trace
shows the scanner was skipped and the sentinel document used. -/
theorem empty_tickers_skips_news_witness :
    scan_portfolio_from "Empty Fund" pdNoTickers (fun _ => .error "no scan")
        (.ok "the report") =
      .ok { newsScannerInvoked := false, newsDoc := sentinelNewsDoc,
            result := { fund_name := "Empty Fund", report := "the report",
                        action_items := [] } } ∧
    ({ newsScannerInvoked := false, newsDoc := sentinelNewsDoc,
       result := { fund_name := "Empty Fund", report := "the report",
                   action_items := [] } } : PipelineTrace).newsScannerInvoked = false ∧
    ({ newsScannerInvoked := false, newsDoc := sentinelNewsDoc,
       result := { fund_name := "Empty Fund", report := "the report",
                   action_items := [] } } : PipelineTrace).newsDoc = sentinelNewsDoc :=
  ⟨rfl,
   (empty_tickers_skips_news "Empty Fund" pdNoTickers (fun _ => .error "no scan")
     (.ok "the report")
     { newsScannerInvoked := false, newsDoc := sentinelNewsDoc,
       result := { fund_name := "Empty Fund", report := "the report", action_items := [] } }
     (.arr []) [] rfl rfl rfl rfl).1,
   (empty_tickers_skips_news "Empty Fund" pdNoTickers (fun _ => .error "no scan")
     (.ok "the report")
     { newsScannerInvoked := false, newsDoc := sentinelNewsDoc,
       result := { fund_name := "Empty Fund", report := "the report", action_items := [] } }
     (.arr []) [] rfl rfl rfl rfl).2.1⟩

/-- C7: for a non-empty list of valid fund names, the batch yields one
result per fund positionally; a fund whose scan fails contributes an
entry carrying the error text in its report and an empty action-items
list, while every other entry is the fund's successful scan result. -/
theorem batch_partial_failure (fund_names : List String)
    (scan : String → Except String ScanResult) (results : List ScanResult)
    (hok : batch_process_portfolios fund_names scan = .ok results) :
    results.length = fund_names.length ∧
    ∀ i : Nat, ∀ name, fund_names[i]? = some name →
      (∀ res, scan name = .ok res → results[i]? = some res) ∧
      (∀ e, scan name = .error e →
        results[i]? = some { fund_name := name, report := "Error: " ++ e,
                             action_items := [] }) := by
  have hres : results = fund_names.map (fun n =>
      match scan n with
      | .ok res => res
      | .error e => { fund_name := n, report := "Error: " ++ e, action_items := [] }) := by
    unfold batch_process_portfolios at hok
    split_ifs at hok <;> simp at hok
    exact hok.symm
  subst hres
  refine ⟨by simp, ?_⟩
  intro i name hname
  constructor
  · intro res hscan
    rw [List.getElem?_map, hname]
    simp [hscan]
  · intro e hscan
    rw [List.getElem?_map, hname]
    simp [hscan]

/-- Witness for C7: three funds where the second fails; the batch has
three entries, the middle one error-shaped, the others normal. -/
theorem batch_partial_failure_witness :
    batch_process_portfolios ["A", "B", "C"] scanSample =
      .ok [{ fund_name := "A", report := "report A", action_items := ["check"] },
           { fund_name := "B", report := "Error: " ++ "boom in B", action_items := [] },
           { fund_name := "C", report := "report C", action_items := ["check"] }] ∧
    ([{ fund_name := "A", report := "report A", action_items := ["check"] },
      { fund_name := "B", report := "Error: " ++ "boom in B", action_items := [] },
      { fund_name := "C", report := "report C", action_items := ["check"] }] :
        List ScanResult).length = (["A", "B", "C"] : List String).length ∧
    ([{ fund_name := "A", report := "report A", action_items := ["check"] },
      { fund_name := "B", report := "Error: " ++ "boom in B", action_items := [] },
      { fund_name := "C", report := "report C", action_items := ["check"] }] :
        List ScanResult)[1]? =
      some { fund_name := "B", report := "Error: " ++ "boom in B", action_items := [] } ∧
    ([{ fund_name := "A", report := "report A", action_items := ["check"] },
      { fund_name := "B", report := "Error: " ++ "boom in B", action_items := [] },
      { fund_name := "C", report := "report C", action_items := ["check"] }] :
        List ScanResult)[0]? =
      some { fund_name := "A", report := "report A", action_items := ["check"] } :=
  ⟨rfl,
   (batch_partial_failure ["A", "B", "C"] scanSample _ rfl).1,
   ((batch_partial_failure ["A", "B", "C"] scanSample _ rfl).2 1 "B" rfl).2
     "boom in B" rfl,
   ((batch_partial_failure ["A", "B", "C"] scanSample _ rfl).2 0 "A" rfl).1
     { fund_name := "A", report := "report A", action_items := ["check"] } rfl⟩

end PortfolioScanner
